import Mathlib

/-!
Verification of `extract_text_from_file` (src/app/knowledge_base/file_parser.py)
against the repository's specification.

The function is shallowly embedded: filesystem and library effects are passed
in explicitly as a map from path strings to per-path library behaviour
(`FileData`), and the logging side channel is returned as a list of `Event`s.
-/

namespace RagAll

/-- An observability event, modelling the `logging` calls of the source. -/
inductive Event where
  | fileNotFound
  | mimeMismatch (mime ext : String)
  | pdfReadError
  | docxReadError
  | utf8FallbackUsed
  | txtReadError
  | unsupportedType (ext : String)
deriving Repr, DecidableEq

/-- What the underlying libraries / OS yield for one existing path:
`pdfParse` models `pypdf.PdfReader(path)` plus iterating `reader.pages`
(`Except.error` = `PdfReadError` or any other exception raised on the reader;
`Except.ok` = the per-page results of `page.extract_text()`, where `none`
models a page whose extraction yields no text — pypdf reports page-level
extraction failures such as unsupported content streams by yielding no text);
`docxParse` models `docx.Document(path)` (`Except.error` = invalid package;
`Except.ok` = the `para.text` values in document order);
`txtRead` models reading the file's raw bytes (`Except.error` = an OS-level
read failure such as a permission error; `Except.ok` = the byte values,
each in `0..255`). -/
structure FileData where
  pdfParse : Except Unit (List (Option String))
  docxParse : Except Unit (List String)
  txtRead : Except Unit (List Nat)

/-- ASCII lowercasing of one character. Python `str.lower()` lowercases full
Unicode, but the two agree on every string whose lowering could equal `.pdf`,
`.docx`, `.txt` or one of the hint families checked below. -/
def lowerChar (c : Char) : Char :=
  if 65 ≤ c.toNat ∧ c.toNat ≤ 90 then Char.ofNat (c.toNat + 32) else c

/-- Splitting a character list on `/`, for path component parsing. -/
def splitSlash : List Char → List (List Char)
  | [] => [[]]
  | c :: rest =>
    if c = Char.ofNat 47 then [] :: splitSlash rest
    else
      match splitSlash rest with
      | h :: t => (c :: h) :: t
      | [] => [[c]]

/-- The last path component, as Python `pathlib.PurePosixPath(p).name`:
split on `/`, drop empty and `.` components, take the last. -/
def pathName (p : String) : List Char :=
  match ((splitSlash p.data).filter
      (fun c => !(c.isEmpty || c == [Char.ofNat 46]))).getLast? with
  | some n => n
  | none => []

/-- Python `pathlib.PurePosixPath(p).suffix`: the substring of the final
component from its last dot `.` to the end, provided that dot is neither the
first nor the last character of the component; otherwise `""`. -/
def pathSuffix (p : String) : String :=
  let n := pathName p
  match (n.enum.filterMap (fun ic => if ic.2 = Char.ofNat 46 then some ic.1 else none)).getLast? with
  | some i => if 0 < i ∧ i < n.length - 1 then String.mk (n.drop i) else ""
  | none => ""

/-- `path.suffix.lower()` of the source (line 29). -/
def fileExtension (file_path : String) : String :=
  String.mk ((pathSuffix file_path).data.map lowerChar)

/-- The mismatch warnings of source lines 32-38: Python `if mime_type:` is
false for `None` and for the empty string; `"pdf" in mime_type.lower()` is
substring containment. -/
def mimeEvents (mime_type : Option String) (ext : String) : List Event :=
  match mime_type with
  | none => []
  | some m =>
    if m = "" then []
    else
      let ml := String.mk (m.data.map lowerChar)
      if "pdf".data.IsInfix ml.data ∧ ext ≠ ".pdf" then [Event.mimeMismatch m ext]
      else if "wordprocessingml.document".data.IsInfix ml.data ∧ ext ≠ ".docx" then [Event.mimeMismatch m ext]
      else if "plain".data.IsInfix ml.data ∧ ext ≠ ".txt" then [Event.mimeMismatch m ext]
      else []

/-- One iteration of the PDF loop (source lines 45-48): `if page_text:` is
false for `None` and for `""`; otherwise `extracted_text += page_text + "\n"`. -/
def pdfPageStep (acc : String) (p : Option String) : String :=
  match p with
  | none => acc
  | some t => if t = "" then acc else acc ++ t ++ "\n"

/-- The PDF accumulation loop over all pages, starting from `""`. -/
def pdfAssemble (pages : List (Option String)) : String :=
  pages.foldl pdfPageStep ""

/-- One iteration of the DOCX loop (source line 60):
`extracted_text += para.text + "\n"`, unconditionally. -/
def docxParaStep (acc : String) (t : String) : String :=
  acc ++ t ++ "\n"

/-- The DOCX accumulation loop over all paragraphs, starting from `""`. -/
def docxAssemble (paras : List String) : String :=
  paras.foldl docxParaStep ""

/-- Is `b` a UTF-8 continuation byte (`0x80..0xBF`)? -/
def isCont (b : Nat) : Bool := 0x80 ≤ b && b ≤ 0xBF

/-- Admissible first continuation byte of a 3-byte UTF-8 sequence led by `b`
(rules out overlong encodings and surrogates, as Python's strict decoder does). -/
def cont1Ok3 (b c1 : Nat) : Bool :=
  if b = 0xE0 then 0xA0 ≤ c1 && c1 ≤ 0xBF
  else if b = 0xED then 0x80 ≤ c1 && c1 ≤ 0x9F
  else isCont c1

/-- Admissible first continuation byte of a 4-byte UTF-8 sequence led by `b`
(rules out overlong encodings and code points above `U+10FFFF`). -/
def cont1Ok4 (b c1 : Nat) : Bool :=
  if b = 0xF0 then 0x90 ≤ c1 && c1 ≤ 0xBF
  else if b = 0xF4 then 0x80 ≤ c1 && c1 ≤ 0x8F
  else isCont c1

/-- Strict UTF-8 decoding (as Python `bytes.decode("utf-8")`): one byte of
fuel per input byte; each decoded character consumes at least one byte. -/
def utf8DecodeAux : Nat → List Nat → Option (List Char)
  | _, [] => some []
  | 0, _ :: _ => none
  | fuel + 1, b :: rest =>
    if b < 0x80 then
      (utf8DecodeAux fuel rest).map (fun cs => Char.ofNat b :: cs)
    else if 0xC2 ≤ b && b ≤ 0xDF then
      match rest with
      | c1 :: r =>
        if isCont c1 then
          (utf8DecodeAux fuel r).map
            (fun cs => Char.ofNat ((b - 0xC0) * 0x40 + (c1 - 0x80)) :: cs)
        else none
      | _ => none
    else if 0xE0 ≤ b && b ≤ 0xEF then
      match rest with
      | c1 :: c2 :: r =>
        if cont1Ok3 b c1 && isCont c2 then
          (utf8DecodeAux fuel r).map
            (fun cs => Char.ofNat ((b - 0xE0) * 0x1000 + (c1 - 0x80) * 0x40 + (c2 - 0x80)) :: cs)
        else none
      | _ => none
    else if 0xF0 ≤ b && b ≤ 0xF4 then
      match rest with
      | c1 :: c2 :: c3 :: r =>
        if cont1Ok4 b c1 && isCont c2 && isCont c3 then
          (utf8DecodeAux fuel r).map
            (fun cs => Char.ofNat ((b - 0xF0) * 0x40000 + (c1 - 0x80) * 0x1000 + (c2 - 0x80) * 0x40 + (c3 - 0x80)) :: cs)
        else none
      | _ => none
    else none

/-- Strict UTF-8 decoding of a whole byte list; `none` on any invalid sequence
(Python raises `UnicodeDecodeError`). -/
def utf8Decode (bytes : List Nat) : Option (List Char) :=
  utf8DecodeAux bytes.length bytes

/-- Latin-1 decoding: total, each byte value is its own code point
(Python `bytes.decode("latin-1")`). -/
def latin1Decode (bytes : List Nat) : List Char :=
  bytes.map Char.ofNat

/-- Universal-newline translation of Python text-mode reads:
`\r\n` becomes `\n`, a lone `\r` becomes `\n`. -/
def translateNewlines : List Char → List Char
  | [] => []
  | '\r' :: '\n' :: rest => '\n' :: translateNewlines rest
  | '\r' :: rest => '\n' :: translateNewlines rest
  | c :: rest => c :: translateNewlines rest

/-- Python whitespace for `str.strip()` / `str.isspace()`: the ASCII
whitespace and separator controls plus the Unicode space characters. -/
def pyIsSpace (c : Char) : Bool :=
  let n := c.toNat
  (0x09 ≤ n && n ≤ 0x0D) || (0x1C ≤ n && n ≤ 0x1F) || n = 0x20 ||
    n = 0x85 || n = 0xA0 || n = 0x1680 || (0x2000 ≤ n && n ≤ 0x200A) ||
    n = 0x2028 || n = 0x2029 || n = 0x202F || n = 0x205F || n = 0x3000

/-- `str.strip()` on a character list: remove trailing then leading
Python whitespace. -/
def pyStripList (l : List Char) : List Char :=
  (((l.reverse).dropWhile pyIsSpace).reverse).dropWhile pyIsSpace

/-- Python `str.strip()` (no arguments). -/
def pyStrip (s : String) : String :=
  String.mk (pyStripList s.data)

/-- The embedding of `extract_text_from_file(file_path, mime_type)`
(source lines 10-92). `fs` is the filesystem / library environment: `none`
means `path.exists()` is false. The first component is the returned string;
the second lists the logging events in order. Every exception handler of the
source is a branch returning `""` here, so the embedding is total: no
exception escapes. -/
def extract_text_from_file (fs : String → Option FileData)
    (file_path : String) (mime_type : Option String) : String × List Event :=
  match fs file_path with
  | none => ("", [Event.fileNotFound])
  | some fd =>
    let ext := fileExtension file_path
    let evs := mimeEvents mime_type ext
    if ext = ".pdf" then
      match fd.pdfParse with
      | Except.error _ => ("", evs ++ [Event.pdfReadError])
      | Except.ok pages => (pyStrip (pdfAssemble pages), evs)
    else if ext = ".docx" then
      match fd.docxParse with
      | Except.error _ => ("", evs ++ [Event.docxReadError])
      | Except.ok paras => (pyStrip (docxAssemble paras), evs)
    else if ext = ".txt" then
      match fd.txtRead with
      | Except.error _ => ("", evs ++ [Event.txtReadError])
      | Except.ok bytes =>
        match utf8Decode bytes with
        | some chars => (pyStrip (String.mk (translateNewlines chars)), evs)
        | none =>
          (pyStrip (String.mk (translateNewlines (latin1Decode bytes))),
           evs ++ [Event.utf8FallbackUsed])
    else ("Unsupported file type", evs ++ [Event.unsupportedType ext])

/-- Joining a list of strings with single newline separators, the
specification's phrase for how page texts and paragraphs are combined. -/
def joinWithNewlines : List String → String
  | [] => ""
  | [t] => t
  | t :: rest => t ++ "\n" ++ joinWithNewlines rest

/-- A singleton filesystem: `p` exists with data `fd`, nothing else exists. -/
def fsOf (p : String) (fd : FileData) : String → Option FileData :=
  fun q => if q = p then some fd else none

/-- A file whose parses all succeed trivially and whose bytes are empty. -/
def fdEmpty : FileData :=
  ⟨Except.ok [], Except.ok [], Except.ok []⟩

/-! ### String append facts -/

theorem strAppend_empty (s : String) : s ++ "" = s := by
  apply String.ext; simp [String.data_append]

theorem strEmpty_append (s : String) : "" ++ s = s := by
  apply String.ext; simp [String.data_append]

theorem strAppend_assoc (a b c : String) : a ++ b ++ c = a ++ (b ++ c) := by
  apply String.ext; simp [String.data_append]

/-! ### Stripping -/

theorem pyIsSpace_nl : pyIsSpace (Char.ofNat 10) = true := by decide

/-- Appending a final newline never changes the stripped value. -/
theorem pyStrip_append_newline (s : String) : pyStrip (s ++ "\n") = pyStrip s := by
  have h : ("\n" : String).data = [Char.ofNat 10] := rfl
  unfold pyStrip pyStripList
  rw [String.data_append, h, List.reverse_append]
  simp [List.dropWhile_cons, pyIsSpace_nl]

/-! ### The accumulation loops as joins -/

/-- Concatenation of each string followed by a newline: the shape the PDF and
DOCX loops build before the final strip. -/
def trailJoin : List String → String
  | [] => ""
  | t :: rest => t ++ "\n" ++ trailJoin rest

theorem pdfPageStep_eq (acc : String) (p : Option String) :
    pdfPageStep acc p = acc ++ pdfPageStep "" p := by
  cases p with
  | none => exact (strAppend_empty acc).symm
  | some t =>
    by_cases ht : t = ""
    · simp [pdfPageStep, ht, strAppend_empty]
    · simp only [pdfPageStep, if_neg ht]
      rw [strEmpty_append, strAppend_assoc]

theorem foldl_pdfPageStep (pages : List (Option String)) :
    ∀ acc : String, pages.foldl pdfPageStep acc = acc ++ pages.foldl pdfPageStep "" := by
  induction pages with
  | nil => intro acc; rw [List.foldl_nil, List.foldl_nil, strAppend_empty]
  | cons p rest ih =>
    intro acc
    rw [List.foldl_cons, List.foldl_cons, ih (pdfPageStep acc p),
      ih (pdfPageStep "" p), pdfPageStep_eq acc p, strAppend_assoc]

theorem pdfAssemble_cons (p : Option String) (rest : List (Option String)) :
    pdfAssemble (p :: rest) = pdfPageStep "" p ++ pdfAssemble rest := by
  unfold pdfAssemble
  rw [List.foldl_cons, foldl_pdfPageStep rest (pdfPageStep "" p)]

/-- The PDF loop keeps exactly the non-empty page texts, each with a trailing
newline. -/
theorem pdfAssemble_map_some (texts : List String) :
    pdfAssemble (texts.map Option.some)
      = trailJoin (texts.filter (fun t => !(t == ""))) := by
  induction texts with
  | nil => rfl
  | cons t ts ih =>
    rw [List.map_cons, pdfAssemble_cons, ih, List.filter_cons]
    by_cases ht : t = ""
    · simp only [pdfPageStep, if_pos ht, ht]
      simp [strEmpty_append]
    · simp only [pdfPageStep, if_neg ht]
      have hb : (!(t == "")) = true := by simp [ht]
      rw [if_pos hb]
      show "" ++ t ++ "\n" ++ _ = trailJoin (t :: _)
      rw [strEmpty_append]
      rfl

theorem docxParaStep_eq (acc t : String) :
    docxParaStep acc t = acc ++ docxParaStep "" t := by
  unfold docxParaStep
  rw [strEmpty_append, strAppend_assoc]

theorem foldl_docxParaStep (paras : List String) :
    ∀ acc : String, paras.foldl docxParaStep acc = acc ++ paras.foldl docxParaStep "" := by
  induction paras with
  | nil => intro acc; rw [List.foldl_nil, List.foldl_nil, strAppend_empty]
  | cons t rest ih =>
    intro acc
    rw [List.foldl_cons, List.foldl_cons, ih (docxParaStep acc t),
      ih (docxParaStep "" t), docxParaStep_eq acc t, strAppend_assoc]

/-- The DOCX loop appends every paragraph, empty ones included, each with a
trailing newline. -/
theorem docxAssemble_eq_trailJoin (paras : List String) :
    docxAssemble paras = trailJoin paras := by
  induction paras with
  | nil => rfl
  | cons t rest ih =>
    unfold docxAssemble
    rw [List.foldl_cons, foldl_docxParaStep rest (docxParaStep "" t)]
    show docxParaStep "" t ++ docxAssemble rest = trailJoin (t :: rest)
    rw [ih]
    unfold docxParaStep
    rw [strEmpty_append]
    rfl

theorem trailJoin_eq (l : List String) (h : l ≠ []) :
    trailJoin l = joinWithNewlines l ++ "\n" := by
  induction l with
  | nil => exact absurd rfl h
  | cons t rest ih =>
    cases rest with
    | nil =>
      show t ++ "\n" ++ trailJoin [] = joinWithNewlines [t] ++ "\n"
      rw [strAppend_assoc]
      show t ++ ("\n" ++ "") = t ++ "\n"
      rw [strAppend_empty]
    | cons u rest2 =>
      show t ++ "\n" ++ trailJoin (u :: rest2) = joinWithNewlines (t :: u :: rest2) ++ "\n"
      rw [ih (by simp)]
      show t ++ "\n" ++ (joinWithNewlines (u :: rest2) ++ "\n")
        = t ++ "\n" ++ joinWithNewlines (u :: rest2) ++ "\n"
      rw [strAppend_assoc (t ++ "\n")]

/-- After the final strip, the loops' trailing-newline concatenation agrees
with joining on single newline separators. -/
theorem pyStrip_trailJoin (l : List String) :
    pyStrip (trailJoin l) = pyStrip (joinWithNewlines l) := by
  cases l with
  | nil => rfl
  | cons t rest => rw [trailJoin_eq (t :: rest) (by simp), pyStrip_append_newline]

/-- A page yielding no text contributes nothing: the PDF loop gives the same
string with that page removed. -/
theorem pdfAssemble_skip_none (pre post : List (Option String)) :
    pdfAssemble (pre ++ Option.none :: post) = pdfAssemble (pre ++ post) := by
  unfold pdfAssemble
  rw [List.foldl_append, List.foldl_append, List.foldl_cons]
  rfl

/-! ### Route characterizations: one lemma per control-flow path of
`extract_text_from_file` -/

theorem route_missing (fs : String → Option FileData) (p : String) (m : Option String)
    (hfs : fs p = none) :
    extract_text_from_file fs p m = ("", [Event.fileNotFound]) := by
  unfold extract_text_from_file
  rw [hfs]

theorem route_pdf_err (fs : String → Option FileData) (p : String) (m : Option String)
    (fd : FileData) (e : Unit) (hfs : fs p = some fd)
    (hext : fileExtension p = ".pdf") (hp : fd.pdfParse = Except.error e) :
    extract_text_from_file fs p m = ("", mimeEvents m ".pdf" ++ [Event.pdfReadError]) := by
  unfold extract_text_from_file
  rw [hfs]
  simp only [hext, hp]
  simp

theorem route_pdf_ok (fs : String → Option FileData) (p : String) (m : Option String)
    (fd : FileData) (pages : List (Option String)) (hfs : fs p = some fd)
    (hext : fileExtension p = ".pdf") (hp : fd.pdfParse = Except.ok pages) :
    extract_text_from_file fs p m = (pyStrip (pdfAssemble pages), mimeEvents m ".pdf") := by
  unfold extract_text_from_file
  rw [hfs]
  simp only [hext, hp]
  simp

theorem route_docx_err (fs : String → Option FileData) (p : String) (m : Option String)
    (fd : FileData) (e : Unit) (hfs : fs p = some fd)
    (hext : fileExtension p = ".docx") (hp : fd.docxParse = Except.error e) :
    extract_text_from_file fs p m = ("", mimeEvents m ".docx" ++ [Event.docxReadError]) := by
  unfold extract_text_from_file
  rw [hfs]
  simp only [hext, hp]
  simp

theorem route_docx_ok (fs : String → Option FileData) (p : String) (m : Option String)
    (fd : FileData) (paras : List String) (hfs : fs p = some fd)
    (hext : fileExtension p = ".docx") (hp : fd.docxParse = Except.ok paras) :
    extract_text_from_file fs p m = (pyStrip (docxAssemble paras), mimeEvents m ".docx") := by
  unfold extract_text_from_file
  rw [hfs]
  simp only [hext, hp]
  simp

theorem route_txt_err (fs : String → Option FileData) (p : String) (m : Option String)
    (fd : FileData) (e : Unit) (hfs : fs p = some fd)
    (hext : fileExtension p = ".txt") (hp : fd.txtRead = Except.error e) :
    extract_text_from_file fs p m = ("", mimeEvents m ".txt" ++ [Event.txtReadError]) := by
  unfold extract_text_from_file
  rw [hfs]
  simp only [hext, hp]
  simp

theorem route_txt_utf8 (fs : String → Option FileData) (p : String) (m : Option String)
    (fd : FileData) (bytes : List Nat) (chars : List Char) (hfs : fs p = some fd)
    (hext : fileExtension p = ".txt") (hb : fd.txtRead = Except.ok bytes)
    (hu : utf8Decode bytes = some chars) :
    extract_text_from_file fs p m
      = (pyStrip (String.mk (translateNewlines chars)), mimeEvents m ".txt") := by
  unfold extract_text_from_file
  rw [hfs]
  simp only [hext, hb, hu]
  simp

theorem route_txt_fallback (fs : String → Option FileData) (p : String) (m : Option String)
    (fd : FileData) (bytes : List Nat) (hfs : fs p = some fd)
    (hext : fileExtension p = ".txt") (hb : fd.txtRead = Except.ok bytes)
    (hu : utf8Decode bytes = none) :
    extract_text_from_file fs p m
      = (pyStrip (String.mk (translateNewlines (latin1Decode bytes))),
         mimeEvents m ".txt" ++ [Event.utf8FallbackUsed]) := by
  unfold extract_text_from_file
  rw [hfs]
  simp only [hext, hb, hu]
  simp

theorem route_unsupported (fs : String → Option FileData) (p : String) (m : Option String)
    (fd : FileData) (hfs : fs p = some fd)
    (h1 : fileExtension p ≠ ".pdf") (h2 : fileExtension p ≠ ".docx")
    (h3 : fileExtension p ≠ ".txt") :
    extract_text_from_file fs p m
      = ("Unsupported file type",
         mimeEvents m (fileExtension p) ++ [Event.unsupportedType (fileExtension p)]) := by
  unfold extract_text_from_file
  rw [hfs]
  simp only [if_neg h1, if_neg h2, if_neg h3]

/-! ### Edges of a stripped string carry no whitespace -/

theorem head_dropWhile_not (q : Char → Bool) :
    ∀ (l : List Char) (c : Char), (l.dropWhile q).head? = some c → q c = false := by
  intro l
  induction l with
  | nil => intro c h; simp [List.dropWhile] at h
  | cons a rest ih =>
    intro c h
    rw [List.dropWhile_cons] at h
    by_cases hq : q a
    · rw [if_pos hq] at h; exact ih c h
    · rw [if_neg hq] at h
      rw [List.head?_cons, Option.some_inj] at h
      subst h
      exact Bool.not_eq_true _ ▸ hq

theorem getLast_dropWhile (q : Char → Bool) :
    ∀ l : List Char, l.dropWhile q ≠ [] → (l.dropWhile q).getLast? = l.getLast? := by
  intro l
  induction l with
  | nil => intro h; simp [List.dropWhile] at h
  | cons a rest ih =>
    intro h
    rw [List.dropWhile_cons] at h ⊢
    by_cases hq : q a
    · rw [if_pos hq] at h ⊢
      rw [ih h]
      have hr : rest ≠ [] := by
        intro he; rw [he] at h; simp [List.dropWhile] at h
      cases rest with
      | nil => exact absurd rfl hr
      | cons u rest2 => rw [List.getLast?_cons_cons]
    · rw [if_neg hq]

/-- The property "no leading and no trailing whitespace". -/
def noEdgeWhitespace (s : String) : Prop :=
  (∀ c : Char, s.data.head? = some c → pyIsSpace c = false) ∧
  (∀ c : Char, s.data.getLast? = some c → pyIsSpace c = false)

theorem noEdgeWhitespace_pyStrip (s : String) : noEdgeWhitespace (pyStrip s) := by
  constructor
  · intro c h
    exact head_dropWhile_not pyIsSpace _ c h
  · intro c h
    have hne : pyStripList s.data ≠ [] := by
      intro he
      rw [show (pyStrip s).data = pyStripList s.data from rfl, he] at h
      simp at h
    unfold pyStripList at hne
    have h2 : (pyStripList s.data).getLast?
        = (((s.data.reverse).dropWhile pyIsSpace).reverse).getLast? :=
      getLast_dropWhile pyIsSpace _ hne
    rw [show (pyStrip s).data = pyStripList s.data from rfl, h2,
      List.getLast?_reverse] at h
    exact head_dropWhile_not pyIsSpace _ c h

/-! ### Concrete file environments used by the witnesses -/

/-- A `.pdf` whose middle page yields no text. -/
def fdPdfSkip : FileData :=
  ⟨Except.ok [some "one", none, some "two"], Except.ok [], Except.ok []⟩

/-- A `.pdf` whose middle page yields the empty text. -/
def fdPdfEmptyPage : FileData :=
  ⟨Except.ok [some "one", some "", some "two"], Except.ok [], Except.ok []⟩

/-- A `.docx` with paragraphs `["A", "", "B"]`. -/
def fdDocxAB : FileData :=
  ⟨Except.ok [], Except.ok ["A", "", "B"], Except.ok []⟩

/-- A `.txt` whose single byte `0xA0` is invalid UTF-8 and decodes under
latin-1 to U+00A0, a whitespace character. -/
def fdA0 : FileData :=
  ⟨Except.ok [], Except.ok [], Except.ok [0xA0]⟩

/-- A `.txt` whose bytes `0xE9 0x61` are invalid UTF-8 and decode under
latin-1 to "éa". -/
def fdLatin : FileData :=
  ⟨Except.ok [], Except.ok [], Except.ok [0xE9, 0x61]⟩

/-- A `.pdf` whose container cannot be opened (corrupt or password-protected). -/
def fdCorruptPdf : FileData :=
  ⟨Except.error (), Except.ok [], Except.ok []⟩

/-! ### The claims -/

/-- Claim C1: for every existing path whose extension (compared
case-insensitively) is not `.pdf`, `.docx` or `.txt`, `extract_text_from_file`
returns exactly the literal sentinel string `"Unsupported file type"`, which
is distinct from the empty string. -/
theorem extract_unsupported_extension_sentinel (fs : String → Option FileData)
    (p : String) (m : Option String) (fd : FileData) (hfs : fs p = some fd)
    (h1 : fileExtension p ≠ ".pdf") (h2 : fileExtension p ≠ ".docx")
    (h3 : fileExtension p ≠ ".txt") :
    (extract_text_from_file fs p m).1 = "Unsupported file type" ∧
      "Unsupported file type" ≠ "" := by
  rw [route_unsupported fs p m fd hfs h1 h2 h3]
  exact ⟨rfl, by decide⟩

theorem extract_unsupported_extension_sentinel_witness :
    (extract_text_from_file (fsOf "a.py" fdEmpty) "a.py" Option.none).1
        = "Unsupported file type" ∧
      "Unsupported file type" ≠ "" :=
  extract_unsupported_extension_sentinel (fsOf "a.py" fdEmpty) "a.py"
    Option.none fdEmpty rfl (by decide) (by decide) (by decide)

/-- Claim C2: for every path that does not reference an existing filesystem
entry, `extract_text_from_file` returns the empty string, regardless of the
extension or any hint. -/
theorem extract_missing_path_empty (fs : String → Option FileData)
    (p : String) (m : Option String) (hfs : fs p = none) :
    (extract_text_from_file fs p m).1 = "" := by
  rw [route_missing fs p m hfs]

theorem extract_missing_path_empty_witness :
    (extract_text_from_file (fun _ => Option.none) "ghost.xyz"
      (Option.some "application/pdf")).1 = "" :=
  extract_missing_path_empty (fun _ => Option.none) "ghost.xyz"
    (Option.some "application/pdf") rfl

/-- Claim C3: for every PDF that opens successfully, a page whose text
extraction yields nothing is tolerated: that page contributes no text, the
remaining pages are still processed, and the extraction of the whole document
does not abort — the result is exactly the result with that page removed. -/
theorem extract_pdf_failed_page_tolerated (fs : String → Option FileData)
    (p : String) (m : Option String) (fd : FileData)
    (pre post : List (Option String)) (hfs : fs p = some fd)
    (hext : fileExtension p = ".pdf")
    (hp : fd.pdfParse = Except.ok (pre ++ Option.none :: post)) :
    (extract_text_from_file fs p m).1 = pyStrip (pdfAssemble (pre ++ post)) := by
  rw [route_pdf_ok fs p m fd (pre ++ Option.none :: post) hfs hext hp]
  show pyStrip (pdfAssemble (pre ++ Option.none :: post)) = _
  rw [pdfAssemble_skip_none]

theorem extract_pdf_failed_page_tolerated_witness :
    (extract_text_from_file (fsOf "p.pdf" fdPdfSkip) "p.pdf" Option.none).1
      = "one\ntwo" :=
  (extract_pdf_failed_page_tolerated (fsOf "p.pdf" fdPdfSkip) "p.pdf"
    Option.none fdPdfSkip [Option.some "one"] [Option.some "two"] rfl
    (by decide) rfl).trans (by decide)

/-- Claim C4: for every PDF whose structure opens successfully and whose pages
each yield per-page texts, the result equals exactly the non-empty page texts
joined with single newline separators, in page order, after trimming the
whole result; pages yielding no text contribute nothing, not an empty line. -/
theorem extract_pdf_joins_nonempty_pages (fs : String → Option FileData)
    (p : String) (m : Option String) (fd : FileData) (texts : List String)
    (hfs : fs p = some fd) (hext : fileExtension p = ".pdf")
    (hp : fd.pdfParse = Except.ok (texts.map Option.some)) :
    (extract_text_from_file fs p m).1
      = pyStrip (joinWithNewlines (texts.filter (fun t => !(t == "")))) := by
  rw [route_pdf_ok fs p m fd (texts.map Option.some) hfs hext hp]
  show pyStrip (pdfAssemble (texts.map Option.some)) = _
  rw [pdfAssemble_map_some, pyStrip_trailJoin]

theorem extract_pdf_joins_nonempty_pages_witness :
    (extract_text_from_file (fsOf "p.pdf" fdPdfEmptyPage) "p.pdf" Option.none).1
      = "one\ntwo" :=
  (extract_pdf_joins_nonempty_pages (fsOf "p.pdf" fdPdfEmptyPage) "p.pdf"
    Option.none fdPdfEmptyPage ["one", "", "two"] rfl (by decide) rfl).trans
    (by decide)

/-- Claim C5: for every DOCX that opens successfully, each paragraph's text in
document order is appended followed by one newline, including empty paragraphs
which contribute a blank line: the result is the paragraph texts joined with
single newlines (empties kept), trimmed; in particular paragraphs
`["A", "", "B"]` yield `"A\n\nB"`. -/
theorem extract_docx_preserves_paragraphs (fs : String → Option FileData)
    (p : String) (m : Option String) (fd : FileData) (paras : List String)
    (hfs : fs p = some fd) (hext : fileExtension p = ".docx")
    (hp : fd.docxParse = Except.ok paras) :
    (extract_text_from_file fs p m).1 = pyStrip (joinWithNewlines paras) := by
  rw [route_docx_ok fs p m fd paras hfs hext hp]
  show pyStrip (docxAssemble paras) = _
  rw [docxAssemble_eq_trailJoin, pyStrip_trailJoin]

theorem extract_docx_preserves_paragraphs_witness :
    (extract_text_from_file (fsOf "d.docx" fdDocxAB) "d.docx" Option.none).1
      = "A\n\nB" :=
  (extract_docx_preserves_paragraphs (fsOf "d.docx" fdDocxAB) "d.docx"
    Option.none fdDocxAB ["A", "", "B"] rfl (by decide) rfl).trans (by decide)

/-- Claim C6 counterexample: the `.txt` file with the single byte `0xA0`
exists, is invalid UTF-8 (so only the total latin-1 fallback decodes it), yet
`extract_text_from_file` returns the EMPTY string: the latin-1 decoding U+00A0
is whitespace and the final trim removes it, so the claim's "returns a
non-empty string" fails. -/
theorem extract_txt_fallback_can_be_empty :
    fsOf "t.txt" fdA0 "t.txt" = some fdA0 ∧
    fileExtension "t.txt" = ".txt" ∧
    utf8Decode [0xA0] = Option.none ∧
    (extract_text_from_file (fsOf "t.txt" fdA0) "t.txt" Option.none).1 = "" :=
  ⟨rfl, by decide, rfl, rfl⟩

/-- Claim C6 (amended): for every existing, readable `.txt` file whose bytes
are not valid UTF-8, decoding falls back to the total latin-1 encoding and
succeeds — no decode failure surfaces, the fallback event is recorded, and the
result is the trimmed latin-1 decoding (which may be empty when that decoding
is entirely whitespace). -/
theorem extract_txt_fallback_latin1 (fs : String → Option FileData)
    (p : String) (m : Option String) (fd : FileData) (bytes : List Nat)
    (hfs : fs p = some fd) (hext : fileExtension p = ".txt")
    (hb : fd.txtRead = Except.ok bytes) (hu : utf8Decode bytes = none) :
    (extract_text_from_file fs p m).1
        = pyStrip (String.mk (translateNewlines (latin1Decode bytes))) ∧
      Event.utf8FallbackUsed ∈ (extract_text_from_file fs p m).2 := by
  rw [route_txt_fallback fs p m fd bytes hfs hext hb hu]
  exact ⟨rfl, by simp⟩

theorem extract_txt_fallback_latin1_witness :
    (extract_text_from_file (fsOf "t.txt" fdLatin) "t.txt" Option.none).1
        = "éa" ∧
      Event.utf8FallbackUsed
        ∈ (extract_text_from_file (fsOf "t.txt" fdLatin) "t.txt" Option.none).2 :=
  ⟨(extract_txt_fallback_latin1 (fsOf "t.txt" fdLatin) "t.txt" Option.none
      fdLatin [0xE9, 0x61] rfl (by decide) rfl rfl).1.trans (by decide),
   (extract_txt_fallback_latin1 (fsOf "t.txt" fdLatin) "t.txt" Option.none
      fdLatin [0xE9, 0x61] rfl (by decide) rfl rfl).2⟩

/-- Claim C7: every failure is absorbed — the embedding is a total function
into strings — and in particular a `.pdf` path whose container cannot be
opened (corrupt or password-protected, i.e. the reader raises) yields `""`
rather than a thrown failure. -/
theorem extract_corrupt_pdf_empty (fs : String → Option FileData)
    (p : String) (m : Option String) (fd : FileData) (e : Unit)
    (hfs : fs p = some fd) (hext : fileExtension p = ".pdf")
    (hp : fd.pdfParse = Except.error e) :
    (extract_text_from_file fs p m).1 = "" := by
  rw [route_pdf_err fs p m fd e hfs hext hp]

theorem extract_corrupt_pdf_empty_witness :
    (extract_text_from_file (fsOf "c.pdf" fdCorruptPdf) "c.pdf" Option.none).1
      = "" :=
  extract_corrupt_pdf_empty (fsOf "c.pdf" fdCorruptPdf) "c.pdf" Option.none
    fdCorruptPdf () rfl (by decide) rfl

/-- Claim C8: for every path and every pair of hint values (including absent),
`extract_text_from_file` takes the same routing decision and returns the same
string given the same file contents: the format is derived purely from the
case-insensitive extension and the hint never changes the returned string. -/
theorem extract_hint_independent (fs : String → Option FileData) (p : String)
    (m1 m2 : Option String) :
    (extract_text_from_file fs p m1).1 = (extract_text_from_file fs p m2).1 := by
  cases hfs : fs p with
  | none => rw [route_missing fs p m1 hfs, route_missing fs p m2 hfs]
  | some fd =>
    by_cases h1 : fileExtension p = ".pdf"
    · cases hp : fd.pdfParse with
      | error e =>
        rw [route_pdf_err fs p m1 fd e hfs h1 hp, route_pdf_err fs p m2 fd e hfs h1 hp]
      | ok pages =>
        rw [route_pdf_ok fs p m1 fd pages hfs h1 hp, route_pdf_ok fs p m2 fd pages hfs h1 hp]
    · by_cases h2 : fileExtension p = ".docx"
      · cases hp : fd.docxParse with
        | error e =>
          rw [route_docx_err fs p m1 fd e hfs h2 hp, route_docx_err fs p m2 fd e hfs h2 hp]
        | ok paras =>
          rw [route_docx_ok fs p m1 fd paras hfs h2 hp, route_docx_ok fs p m2 fd paras hfs h2 hp]
      · by_cases h3 : fileExtension p = ".txt"
        · cases hb : fd.txtRead with
          | error e =>
            rw [route_txt_err fs p m1 fd e hfs h3 hb, route_txt_err fs p m2 fd e hfs h3 hb]
          | ok bytes =>
            cases hu : utf8Decode bytes with
            | some chars =>
              rw [route_txt_utf8 fs p m1 fd bytes chars hfs h3 hb hu,
                route_txt_utf8 fs p m2 fd bytes chars hfs h3 hb hu]
            | none =>
              rw [route_txt_fallback fs p m1 fd bytes hfs h3 hb hu,
                route_txt_fallback fs p m2 fd bytes hfs h3 hb hu]
        · rw [route_unsupported fs p m1 fd hfs h1 h2 h3,
            route_unsupported fs p m2 fd hfs h1 h2 h3]

/-- Claim C9: every value returned by `extract_text_from_file` is one of
exactly three shapes: the sentinel `"Unsupported file type"`, the empty
string, or text with no leading and no trailing whitespace. -/
theorem extract_result_three_shapes (fs : String → Option FileData)
    (p : String) (m : Option String) :
    (extract_text_from_file fs p m).1 = "Unsupported file type" ∨
    (extract_text_from_file fs p m).1 = "" ∨
    noEdgeWhitespace (extract_text_from_file fs p m).1 := by
  cases hfs : fs p with
  | none => exact Or.inr (Or.inl (by rw [route_missing fs p m hfs]))
  | some fd =>
    by_cases h1 : fileExtension p = ".pdf"
    · cases hp : fd.pdfParse with
      | error e => exact Or.inr (Or.inl (by rw [route_pdf_err fs p m fd e hfs h1 hp]))
      | ok pages =>
        refine Or.inr (Or.inr ?_)
        rw [route_pdf_ok fs p m fd pages hfs h1 hp]
        exact noEdgeWhitespace_pyStrip _
    · by_cases h2 : fileExtension p = ".docx"
      · cases hp : fd.docxParse with
        | error e => exact Or.inr (Or.inl (by rw [route_docx_err fs p m fd e hfs h2 hp]))
        | ok paras =>
          refine Or.inr (Or.inr ?_)
          rw [route_docx_ok fs p m fd paras hfs h2 hp]
          exact noEdgeWhitespace_pyStrip _
      · by_cases h3 : fileExtension p = ".txt"
        · cases hb : fd.txtRead with
          | error e => exact Or.inr (Or.inl (by rw [route_txt_err fs p m fd e hfs h3 hb]))
          | ok bytes =>
            cases hu : utf8Decode bytes with
            | some chars =>
              refine Or.inr (Or.inr ?_)
              rw [route_txt_utf8 fs p m fd bytes chars hfs h3 hb hu]
              exact noEdgeWhitespace_pyStrip _
            | none =>
              refine Or.inr (Or.inr ?_)
              rw [route_txt_fallback fs p m fd bytes hfs h3 hb hu]
              exact noEdgeWhitespace_pyStrip _
        · exact Or.inl (by rw [route_unsupported fs p m fd hfs h1 h2 h3])

theorem extract_result_three_shapes_witness :
    (extract_text_from_file (fsOf "d.docx" fdDocxAB) "w.docx" Option.none).1
        = "Unsupported file type" ∨
      (extract_text_from_file (fsOf "d.docx" fdDocxAB) "w.docx" Option.none).1 = "" ∨
      noEdgeWhitespace (extract_text_from_file (fsOf "d.docx" fdDocxAB) "w.docx" Option.none).1 :=
  extract_result_three_shapes (fsOf "d.docx" fdDocxAB) "w.docx" Option.none

/-- Claim C10: the existence check runs before format classification: a path
that does not exist yields `""` even when its extension is unsupported, so the
sentinel `"Unsupported file type"` is returned only for paths that exist. -/
theorem extract_existence_before_classification (fs : String → Option FileData)
    (p : String) (m : Option String) :
    (fs p = none → (extract_text_from_file fs p m).1 = "") ∧
    ((extract_text_from_file fs p m).1 = "Unsupported file type" → fs p ≠ none) := by
  constructor
  · intro hfs
    rw [route_missing fs p m hfs]
  · intro hsent hfs
    rw [route_missing fs p m hfs] at hsent
    exact absurd hsent (by decide)

theorem extract_existence_before_classification_witness :
    (extract_text_from_file (fun _ => Option.none) "gone.py" Option.none).1 = "" ∧
      fsOf "a.py" fdEmpty "a.py" ≠ Option.none :=
  ⟨(extract_existence_before_classification (fun _ => Option.none) "gone.py"
      Option.none).1 rfl,
   (extract_existence_before_classification (fsOf "a.py" fdEmpty) "a.py"
      Option.none).2 rfl⟩

end RagAll
